import Mathlib

/-!
Shallow embedding of the EmailSender utility (send_email.py, custom_logger.py).

Strings are modelled as lists of characters (PyStr). File systems are
modelled as partial maps from paths to contents: a text map for files read
in text mode and a byte map for files read in binary mode. SMTP traffic is
modelled as a trace of events; no real network exists in the model.
-/

/-- Python strings, modelled as lists of characters. -/
abbrev PyStr := List Char

/-- Whitespace characters stripped by the Python str.strip method
(ASCII subset: space, tab, newline, carriage return, vertical tab, form feed). -/
def pyIsSpace (c : Char) : Bool :=
  c = ' ' || c = '\t' || c = '\n' || c = '\r' || c = '\x0b' || c = '\x0c'

/-- Python str.lstrip with no argument. -/
def pyLStrip (s : PyStr) : PyStr := s.dropWhile pyIsSpace

/-- Python str.rstrip with no argument. -/
def pyRStrip (s : PyStr) : PyStr := (s.reverse.dropWhile pyIsSpace).reverse

/-- Python str.strip with no argument. -/
def pyStrip (s : PyStr) : PyStr := pyLStrip (pyRStrip s)

/-- Python str.startswith on strings. -/
def pyStartsWith (s pre : PyStr) : Bool := pre.isPrefixOf s

/-- The third component of Python str.partition at the first colon:
everything after the first colon, or the empty string if there is none.
This embeds the expression line.partition(":")[2] of send_email.py. -/
def partAfterColon : PyStr → PyStr
  | [] => []
  | c :: rest => if c = ':' then rest else partAfterColon rest

/-- Python str.split with a one-character separator. Always returns at
least one piece; adjacent separators yield empty pieces. -/
def pySplitChar (sep : Char) : PyStr → List PyStr
  | [] => [[]]
  | c :: rest =>
    if c = sep then [] :: pySplitChar sep rest
    else
      match pySplitChar sep rest with
      | [] => [[c]]
      | piece :: pieces => (c :: piece) :: pieces

/-- Iterating over an open text file in Python yields its lines with the
terminating newline kept on each line. -/
def splitKeepNl : PyStr → List PyStr
  | [] => []
  | c :: rest =>
    if c = '\n' then ['\n'] :: splitKeepNl rest
    else
      match splitKeepNl rest with
      | [] => [[c]]
      | l :: ls => (c :: l) :: ls

/-- Errors raised by the program: a bare Exception or a ValueError,
each carrying its message. -/
inductive PyError where
  | exn (msg : PyStr) : PyError
  | valueError (msg : PyStr) : PyError
deriving DecidableEq

/-- The message carried by an error, as produced by Python str(e). -/
def PyError.message : PyError → PyStr
  | .exn m => m
  | .valueError m => m

instance {ε α : Type} [DecidableEq ε] [DecidableEq α] : DecidableEq (Except ε α) :=
  fun x y =>
  match x, y with
  | .ok a, .ok b =>
    if h : a = b then .isTrue (by rw [h]) else .isFalse (by simp [h])
  | .error e, .error f =>
    if h : e = f then .isTrue (by rw [h]) else .isFalse (by simp [h])
  | .ok _, .error _ => .isFalse (by simp)
  | .error _, .ok _ => .isFalse (by simp)

/-- One iteration of the scanning loop of get_secrets (lines 61-65 of
send_email.py): each line that starts with a tag overwrites that tag's
value with the stripped text after the first colon. -/
def scanStep (utag ptag : PyStr) (st : PyStr × PyStr) (line : PyStr) : PyStr × PyStr :=
  let u := if pyStartsWith line utag then pyStrip (partAfterColon line) else st.1
  let p := if pyStartsWith line ptag then pyStrip (partAfterColon line) else st.2
  (u, p)

/-- The part of get_secrets that runs once the file is open: scan every
line, then fail with a ValueError for whichever tag still has the empty
string as its value (username checked first). -/
def get_secretsContent (secrets_file utag ptag content : PyStr) :
    Except PyError (PyStr × PyStr) :=
  let lines := splitKeepNl content
  let up := lines.foldl (scanStep utag ptag) ([], [])
  if up.1 = [] then
    .error (.valueError ("Username tag: '".toList ++ utag ++
      "' not found in '".toList ++ secrets_file ++ "'!".toList))
  else if up.2 = [] then
    .error (.valueError ("Password tag: '".toList ++ ptag ++
      "' not found in '".toList ++ secrets_file ++ "'!".toList))
  else .ok up

/-- get_secrets of send_email.py: raise if the secrets file does not
exist, otherwise scan its content for the two tags. -/
def get_secrets (fs : PyStr → Option PyStr) (secrets_file utag ptag : PyStr) :
    Except PyError (PyStr × PyStr) :=
  match fs secrets_file with
  | none => .error (.exn ("File '".toList ++ secrets_file ++
      "' does not exist!".toList))
  | some content => get_secretsContent secrets_file utag ptag content

/-- The standard base64 alphabet, indexed by a six-bit value. -/
def b64Char (n : Nat) : Char :=
  ("ABCDEFGHIJKLMNOPQRSTUVWXYZabcdefghijklmnopqrstuvwxyz0123456789+/".toList).getD n 'A'

/-- Base64 of a byte sequence without line wrapping, with padding. -/
def b64EncodeGroups : List Nat → List Char
  | [] => []
  | [a] => [b64Char (a / 4), b64Char (a % 4 * 16), '=', '=']
  | [a, b] => [b64Char (a / 4), b64Char (a % 4 * 16 + b / 16), b64Char (b % 16 * 4), '=']
  | a :: b :: c :: rest =>
    b64Char (a / 4) :: b64Char (a % 4 * 16 + b / 16) ::
      b64Char (b % 16 * 4 + c / 64) :: b64Char (c % 64) :: b64EncodeGroups rest

/-- Insert a newline after every 76 characters and terminate the final
line with a newline. The first argument counts the characters still
allowed on the current line. -/
def wrapLines : Nat → List Char → List Char
  | _, [] => ['\n']
  | 0, c :: cs => '\n' :: c :: wrapLines 75 cs
  | Nat.succ k, c :: cs => c :: wrapLines k cs

/-- Python base64.encodebytes, as used by email.encoders.encode_base64:
it encodes each 57-byte chunk of the input to 76 base64 characters
followed by a newline. Because only the final group of a base64 encoding
carries padding, this equals the base64 of the whole input wrapped at 76
characters with a terminating newline, which is how it is written here. -/
def encodebytes (bs : List Nat) : List Char :=
  match bs with
  | [] => []
  | _ => wrapLines 76 (b64EncodeGroups bs)

/-- Python pathlib.Path.name: the final path component. -/
def pathName (p : PyStr) : PyStr := (p.reverse.takeWhile (fun c => c ≠ '/')).reverse

/-- A MIME part of the composed message: either a MIMEText body part with
its subtype, or a MIMEBase part with content type, payload and extra
headers in the order they were added. -/
inductive MimePart where
  | text (body : PyStr) (subtype : PyStr)
  | base (maintype subtype : PyStr) (payload : List Char) (headers : List (PyStr × PyStr))
deriving DecidableEq

/-- The composed MIMEMultipart message: From, To and Subject headers and
the attached parts in order. -/
structure EmailMessage where
  fromAddr : PyStr
  toHeader : PyStr
  subject : PyStr
  parts : List MimePart
deriving DecidableEq

/-- One observable action on the SMTP connection. -/
inductive SmtpEvent where
  | connect (host : PyStr) (port : Nat)
  | starttls
  | login (user pass : PyStr)
  | sendmail (fromAddr : PyStr) (recipients : List PyStr) (message : EmailMessage)
deriving DecidableEq

/-- File system seen by the program: a text view (files read in text
mode) and a byte view (files read in binary mode). -/
structure FS where
  text : PyStr → Option PyStr
  bin : PyStr → Option (List Nat)

/-- Outcome of one send_email call: the SMTP events that happened and
either the composed message or the error that aborted the call. -/
structure SendResult where
  events : List SmtpEvent
  outcome : Except PyError EmailMessage
deriving DecidableEq

/-- The attachment part built for one path (lines 145-153 of
send_email.py): an application/octet-stream MIMEBase part whose payload is
set to the file bytes then base64-encoded by encoders.encode_base64 (which
also adds the Content-Transfer-Encoding header), and whose
Content-Disposition names the path's final component. -/
def mkAttachment (path : PyStr) (bytes : List Nat) : MimePart :=
  .base "application".toList "octet-stream".toList (encodebytes bytes)
    [("Content-Transfer-Encoding".toList, "base64".toList),
     ("Content-Disposition".toList, "attachment; filename=".toList ++ pathName path)]

/-- Sequential traversal over Except that stops at the first error, as
the attachment loop of send_email does when an open fails. -/
def exMapM {α β : Type} (f : α → Except PyError β) : List α → Except PyError (List β)
  | [] => .ok []
  | a :: as =>
    match f a with
    | .error e => .error e
    | .ok b =>
      match exMapM f as with
      | .error e => .error e
      | .ok bs => .ok (b :: bs)

/-- The attachment loop of send_email: for each path in order, read the
file's bytes (an unreadable file raises and aborts the send) and build its
MIME part. A None attachments argument attaches nothing. -/
def attachParts (fs : FS) : Option (List PyStr) → Except PyError (List MimePart)
  | none => .ok []
  | some paths =>
    exMapM (fun p =>
      match fs.bin p with
      | none => .error (.exn ("No such file or directory: '".toList ++ p ++ "'".toList))
      | some bytes => .ok (mkAttachment p bytes)) paths

/-- send_email of send_email.py: resolve credentials, rewrite the DEBUG
sentinel recipient list to the sender, compose the multipart message
(body part, then attachment parts), then connect, STARTTLS, login and
submit. Errors before the connection produce an empty event trace. -/
def send_email (fs : FS) (recipients : List PyStr) (subject body : PyStr)
    (secrets_file utag ptag : PyStr) (html : Bool)
    (attachments : Option (List PyStr)) : SendResult :=
  match get_secrets fs.text secrets_file utag ptag with
  | .error e => ⟨[], .error e⟩
  | .ok (username, password) =>
    let recipients := if recipients = ["DEBUG".toList] then [username] else recipients
    let bodyPart := if html then MimePart.text body "html".toList
                    else MimePart.text body "plain".toList
    match attachParts fs attachments with
    | .error e => ⟨[], .error e⟩
    | .ok aparts =>
      let message : EmailMessage :=
        { fromAddr := username
          toHeader := List.intercalate ", ".toList recipients
          subject := subject
          parts := bodyPart :: aparts }
      ⟨[.connect "smtp.gmail.com".toList 587, .starttls, .login username password,
        .sendmail username recipients message], .ok message⟩

/-- Outcome of one test_send_email call: the messages logged in order,
whether the call returned normally, and the SMTP events of the inner
send. -/
structure TestResult where
  logs : List PyStr
  outcome : Except PyError Unit
  sends : List SmtpEvent
deriving DecidableEq

/-- The bytes of the autogenerated test attachment file. -/
def testAttachmentBytes : List Nat := ("This is a test attachment.\n".toList).map Char.toNat

/-- The log message emitted when test_send_email catches an exception
from send_email (the traceback appended by the code is not modelled). -/
def exceptionLog (e : PyError) : PyStr := "Exception occurred: ".toList ++ e.message

/-- test_send_email of send_email.py. The module-global args.secrets_file
read on line 225 is an explicit parameter argsSecretsFile. With an
attachment, the code first creates test.txt in open mode x (failing if it
exists), sends with the secrets_file parameter, and catches exceptions of
send_email; without an attachment it sends with argsSecretsFile and
catches likewise. Both branches then log the closing line. -/
def test_send_email (fs : FS) (argsSecretsFile secrets_file utag ptag : PyStr)
    (includeAttachment : Bool) : TestResult :=
  let initLogs := ["====== INITIALIZING... ======".toList,
                   "Attempting to send test email...".toList]
  if includeAttachment then
    match fs.bin "test.txt".toList with
    | some _ =>
      ⟨initLogs, .error (.exn ("File exists: 'test.txt'".toList)), []⟩
    | none =>
      let fs2 : FS :=
        { fs with bin := fun p =>
            if p = "test.txt".toList then some testAttachmentBytes else fs.bin p }
      let r := send_email fs2 ["DEBUG".toList] "Test Email".toList
        "This is a test.".toList secrets_file utag ptag false (some ["test.txt".toList])
      match r.outcome with
      | .ok _ =>
        ⟨initLogs ++ ["====== TERMINATED ======".toList], .ok (), r.events⟩
      | .error e =>
        ⟨initLogs ++ [exceptionLog e, "====== TERMINATED ======".toList], .ok (), r.events⟩
  else
    let r := send_email fs ["DEBUG".toList] "Test Email".toList
      "This is a test.".toList argsSecretsFile utag ptag false none
    match r.outcome with
    | .ok _ =>
      ⟨initLogs ++ ["====== TERMINATED ======".toList], .ok (), r.events⟩
    | .error e =>
      ⟨initLogs ++ [exceptionLog e, "====== TERMINATED ======".toList], .ok (), r.events⟩

/-- Python file.readline: the characters up to and including the first
newline (or the whole rest if there is none), and the remaining content. -/
def pyReadline : PyStr → PyStr × PyStr
  | [] => ([], [])
  | c :: rest =>
    if c = '\n' then ([c], rest)
    else
      let r := pyReadline rest
      (c :: r.1, r.2)

/-- The message-mode file parsing of the CLI front end (lines 358-367 of
send_email.py): fail if the file does not exist; read the first line,
strip it and split it on commas for the recipients; fail if the first
recipient is empty; read and strip the second line for the subject; the
rest of the file is the body. -/
def readMessageFile (fs : FS) (file : PyStr) :
    Except PyError (List PyStr × PyStr × PyStr) :=
  match fs.text file with
  | none => .error (.exn ("File '".toList ++ file ++ "' does not exist!".toList))
  | some content =>
    let r1 := pyReadline content
    let recipients := pySplitChar ',' (pyStrip r1.1)
    if recipients.headD [] = [] then
      .error (.exn ("File '".toList ++ file ++ "' is empty!".toList))
    else
      let r2 := pyReadline r1.2
      .ok (recipients, pyStrip r2.1, r2.2)

/-- Specification-side reading: the value carried by the FIRST line of
the file matching a tag, if any. -/
def firstMatchValue (tag : PyStr) (lines : List PyStr) : Option PyStr :=
  (lines.find? (fun l => pyStartsWith l tag)).map (fun l => pyStrip (partAfterColon l))

/-- Specification-side reading: the value carried by the LAST line of the
file matching a tag, if any. -/
def lastMatchValue (tag : PyStr) (lines : List PyStr) : Option PyStr :=
  (lines.reverse.find? (fun l => pyStartsWith l tag)).map (fun l => pyStrip (partAfterColon l))

/-- The scanning loop restricted to a single tag. -/
def scan1 (tag : PyStr) (lines : List PyStr) : PyStr :=
  lines.foldl
    (fun acc l => if pyStartsWith l tag then pyStrip (partAfterColon l) else acc) []

theorem find?_append_eq {α : Type} (p : α → Bool) (l₁ l₂ : List α) :
    (l₁ ++ l₂).find? p =
      (match l₁.find? p with
       | some x => some x
       | none => l₂.find? p) := by
  induction l₁ with
  | nil => simp
  | cons x xs ih =>
    by_cases h : p x
    · simp [List.find?_cons_of_pos _ h, h]
    · simp [List.find?_cons_of_neg _ h, h, ih]

theorem foldl_overwrite {α β : Type} (m : α → Bool) (v : α → β) (l : List α) (a : β) :
    l.foldl (fun acc x => if m x then v x else acc) a =
      (match l.reverse.find? m with
       | some x => v x
       | none => a) := by
  induction l generalizing a with
  | nil => simp
  | cons x xs ih =>
    simp only [List.foldl_cons, List.reverse_cons]
    rw [ih, find?_append_eq]
    cases hfind : xs.reverse.find? m with
    | some y => simp
    | none =>
      by_cases h : m x <;> simp [List.find?_cons_of_pos, List.find?_cons_of_neg, h]

theorem scan_fst (utag ptag : PyStr) (lines : List PyStr) (a b : PyStr) :
    (lines.foldl (scanStep utag ptag) (a, b)).1 =
      lines.foldl
        (fun acc l => if pyStartsWith l utag then pyStrip (partAfterColon l) else acc) a := by
  induction lines generalizing a b with
  | nil => rfl
  | cons x xs ih =>
    rw [List.foldl_cons, List.foldl_cons]
    exact ih _ _

theorem scan_snd (utag ptag : PyStr) (lines : List PyStr) (a b : PyStr) :
    (lines.foldl (scanStep utag ptag) (a, b)).2 =
      lines.foldl
        (fun acc l => if pyStartsWith l ptag then pyStrip (partAfterColon l) else acc) b := by
  induction lines generalizing a b with
  | nil => rfl
  | cons x xs ih =>
    rw [List.foldl_cons, List.foldl_cons]
    exact ih _ _

theorem scan1_eq_lastMatch (tag : PyStr) (lines : List PyStr) :
    scan1 tag lines = (lastMatchValue tag lines).getD [] := by
  unfold scan1 lastMatchValue
  rw [foldl_overwrite]
  cases lines.reverse.find? (fun l => pyStartsWith l tag) <;> simp

/-- Specification-side reading of the message file format: the first
line, without its newline. -/
def firstLineOf (c : PyStr) : PyStr := c.takeWhile (fun ch => ch ≠ '\n')

/-- Specification-side reading: the content after the first line. -/
def afterFirstLine (c : PyStr) : PyStr := (c.dropWhile (fun ch => ch ≠ '\n')).drop 1

theorem pyReadline_eq (c : PyStr) :
    pyReadline c =
      (firstLineOf c ++ (if '\n' ∈ c then ['\n'] else []), afterFirstLine c) := by
  induction c with
  | nil => simp [pyReadline, firstLineOf, afterFirstLine]
  | cons a rest ih =>
    by_cases h : a = '\n'
    · subst h
      simp [pyReadline, firstLineOf, afterFirstLine]
    · simp [pyReadline, h, ih, firstLineOf, afterFirstLine, Ne.symm h]

theorem pyRStrip_append_nl (s : PyStr) : pyRStrip (s ++ ['\n']) = pyRStrip s := by
  simp [pyRStrip, List.reverse_append]
  rw [List.dropWhile_cons_of_pos (by decide)]

theorem pyStrip_append_nl (s : PyStr) : pyStrip (s ++ ['\n']) = pyStrip s := by
  simp [pyStrip, pyRStrip_append_nl]

theorem pyStrip_readline_fst (c : PyStr) :
    pyStrip (pyReadline c).1 = pyStrip (firstLineOf c) := by
  rw [pyReadline_eq]
  by_cases h : '\n' ∈ c <;> simp [h, pyStrip_append_nl]

theorem exMapM_ok {α β : Type} (f : α → Except PyError β) (g : α → β)
    (l : List α) (h : ∀ a ∈ l, f a = .ok (g a)) :
    exMapM f l = .ok (l.map g) := by
  induction l with
  | nil => rfl
  | cons x xs ih =>
    simp only [exMapM, h x (by simp), List.map_cons,
      ih (fun a ha => h a (by simp [ha]))]

/-- True exactly on error results. -/
def isErr {ε α : Type} : Except ε α → Bool
  | .error _ => true
  | .ok _ => false

theorem scanPair_eq (utag ptag : PyStr) (lines : List PyStr) :
    lines.foldl (scanStep utag ptag) ([], []) =
      ((lastMatchValue utag lines).getD [], (lastMatchValue ptag lines).getD []) := by
  have h1 : (lines.foldl (scanStep utag ptag) ([], [])).1 =
      (lastMatchValue utag lines).getD [] := by
    rw [scan_fst]
    exact scan1_eq_lastMatch utag lines
  have h2 : (lines.foldl (scanStep utag ptag) ([], [])).2 =
      (lastMatchValue ptag lines).getD [] := by
    rw [scan_snd]
    exact scan1_eq_lastMatch ptag lines
  rw [← h1, ← h2]

/-- Restatement of the open-file part of get_secrets in terms of the last
matching line of each tag. -/
theorem get_secretsContent_eq (sf utag ptag content : PyStr) :
    get_secretsContent sf utag ptag content =
      (if (lastMatchValue utag (splitKeepNl content)).getD [] = [] then
        .error (.valueError ("Username tag: '".toList ++ utag ++
          "' not found in '".toList ++ sf ++ "'!".toList))
      else if (lastMatchValue ptag (splitKeepNl content)).getD [] = [] then
        .error (.valueError ("Password tag: '".toList ++ ptag ++
          "' not found in '".toList ++ sf ++ "'!".toList))
      else .ok ((lastMatchValue utag (splitKeepNl content)).getD [],
                (lastMatchValue ptag (splitKeepNl content)).getD [])) := by
  simp only [get_secretsContent, scanPair_eq]

/-- The secrets file of the C1 counterexample: the tag u is a prefix of
two lines carrying different values. -/
def fsC1 : PyStr → Option PyStr :=
  fun p => if p = "s.txt".toList then some "u: a\nu: b\np: c\n".toList else none

/-- C1 counterexample: in a file whose tag u prefixes the two lines
u: a and u: b, the first matching line carries the value a, but
get_secrets returns b — the first-match-wins claim is false here. -/
theorem C1_counterexample :
    firstMatchValue "u".toList (splitKeepNl "u: a\nu: b\np: c\n".toList)
      = some "a".toList ∧
    get_secrets fsC1 "s.txt".toList "u".toList "p".toList
      = .ok ("b".toList, "c".toList) ∧
    ("b".toList : PyStr) ≠ "a".toList := by decide

/-- C1 (amended): when get_secrets succeeds, each returned value is the
trimmed text after the first colon of the LAST line matching its tag —
later matching lines overwrite earlier ones. -/
theorem C1_last_match_wins (fs : PyStr → Option PyStr)
    (sf content utag ptag u p : PyStr)
    (hfs : fs sf = some content)
    (hok : get_secrets fs sf utag ptag = .ok (u, p)) :
    lastMatchValue utag (splitKeepNl content) = some u ∧
    lastMatchValue ptag (splitKeepNl content) = some p := by
  have hok2 : get_secretsContent sf utag ptag content = .ok (u, p) := by
    unfold get_secrets at hok
    rwa [hfs] at hok
  rw [get_secretsContent_eq] at hok2
  by_cases h1 : (lastMatchValue utag (splitKeepNl content)).getD [] = []
  · rw [if_pos h1] at hok2
    simp at hok2
  by_cases h2 : (lastMatchValue ptag (splitKeepNl content)).getD [] = []
  · rw [if_neg h1, if_pos h2] at hok2
    simp at hok2
  rw [if_neg h1, if_neg h2] at hok2
  injection hok2 with hpair
  injection hpair with hu hp
  constructor
  · cases hc : lastMatchValue utag (splitKeepNl content) with
    | none => rw [hc] at h1; simp at h1
    | some v => rw [hc] at hu; simp at hu; rw [hu]
  · cases hc : lastMatchValue ptag (splitKeepNl content) with
    | none => rw [hc] at h2; simp at h2
    | some v => rw [hc] at hp; simp at hp; rw [hp]

/-- Witness for C1: on the counterexample file, the returned values b and
c are those of the last matching lines. -/
theorem C1_last_match_wins_witness :
    lastMatchValue "u".toList (splitKeepNl "u: a\nu: b\np: c\n".toList)
      = some "b".toList ∧
    lastMatchValue "p".toList (splitKeepNl "u: a\nu: b\np: c\n".toList)
      = some "c".toList :=
  C1_last_match_wins fsC1 "s.txt".toList "u: a\nu: b\np: c\n".toList
    "u".toList "p".toList "b".toList "c".toList (by decide) (by decide)

/-- The secrets file of the C2 counterexample: the line u matches the tag
u but has no colon. -/
def fsC2 : PyStr → Option PyStr :=
  fun p => if p = "s.txt".toList then some "u\np: x\n".toList else none

/-- C2 counterexample: in a file whose first line is exactly u, the tag u
is matched by a line, yet get_secrets fails with the missing-tag error —
failing is not equivalent to the tag never being matched. -/
theorem C2_counterexample :
    (∃ line ∈ splitKeepNl "u\np: x\n".toList,
      pyStartsWith line "u".toList = true) ∧
    get_secrets fsC2 "s.txt".toList "u".toList "p".toList
      = .error (.valueError ("Username tag: 'u' not found in 's.txt'!".toList)) := by
  decide

/-- C2 (amended): get_secrets succeeds with exactly the trimmed values
after the first colon of the last matching line of each tag when both are
non-empty, and fails with the missing-tag error exactly when a tag's scan
value is empty — because no line matched, or the last matching line had
no colon or an empty trimmed value. -/
theorem C2_value_and_error_characterization (sf utag ptag content : PyStr) :
    (∀ u p, get_secretsContent sf utag ptag content = .ok (u, p) ↔
      ((lastMatchValue utag (splitKeepNl content)).getD [] = u ∧ u ≠ [] ∧
       (lastMatchValue ptag (splitKeepNl content)).getD [] = p ∧ p ≠ [])) ∧
    (isErr (get_secretsContent sf utag ptag content) = true ↔
      ((lastMatchValue utag (splitKeepNl content)).getD [] = [] ∨
       (lastMatchValue ptag (splitKeepNl content)).getD [] = [])) := by
  rw [get_secretsContent_eq]
  by_cases h1 : (lastMatchValue utag (splitKeepNl content)).getD [] = []
  · constructor
    · intro u p
      rw [if_pos h1]
      constructor
      · intro h; simp at h
      · rintro ⟨hu, hne, _⟩
        exact absurd (by rw [← hu]; exact h1) hne
    · rw [if_pos h1]
      simp [h1, isErr]
  by_cases h2 : (lastMatchValue ptag (splitKeepNl content)).getD [] = []
  · constructor
    · intro u p
      rw [if_neg h1, if_pos h2]
      constructor
      · intro h; simp at h
      · rintro ⟨_, _, hp, hpne⟩
        exact absurd (by rw [← hp]; exact h2) hpne
    · rw [if_neg h1, if_pos h2]
      simp [h2, isErr]
  · constructor
    · intro u p
      rw [if_neg h1, if_neg h2]
      constructor
      · intro h
        injection h with hpair
        injection hpair with hu hp
        refine ⟨hu, ?_, hp, ?_⟩
        · rw [← hu]; exact h1
        · rw [← hp]; exact h2
      · rintro ⟨hu, _, hp, _⟩
        rw [hu, hp]
    · rw [if_neg h1, if_neg h2]
      simp [h1, h2, isErr]

/-- Witness for C2: the amended characterization applied to a concrete
file on which a tag matches a colon-free line. -/
theorem C2_characterization_witness :
    isErr (get_secretsContent "s.txt".toList "u".toList "p".toList
      "u\np: x\n".toList) = true :=
  (C2_value_and_error_characterization "s.txt".toList "u".toList "p".toList
    "u\np: x\n".toList).2.mpr (by decide)

/-- The recipient lists submitted over SMTP during one send, in order. -/
def sentTo (r : SendResult) : List (List PyStr) :=
  r.events.filterMap (fun e =>
    match e with
    | .sendmail _ rcpts _ => some rcpts
    | _ => none)

/-- The composed message of a successful send, if any. -/
def okMessage (r : SendResult) : Option EmailMessage :=
  match r.outcome with
  | .ok m => some m
  | .error _ => none

/-- C4: for every path naming no existing file, the send fails with the
file-does-not-exist error raised by get_secrets, and the SMTP event trace
is empty — no network activity happens on that run. -/
theorem C4_no_network_on_missing_file (fs : FS) (recipients : List PyStr)
    (subject body sf utag ptag : PyStr) (html : Bool) (atts : Option (List PyStr))
    (h : fs.text sf = none) :
    send_email fs recipients subject body sf utag ptag html atts =
      ⟨[], .error (.exn ("File '".toList ++ sf ++ "' does not exist!".toList))⟩ := by
  have hsec : get_secrets fs.text sf utag ptag =
      .error (.exn ("File '".toList ++ sf ++ "' does not exist!".toList)) := by
    unfold get_secrets
    rw [h]
  unfold send_email
  rw [hsec]

/-- Witness for C4: a file system with no files yields the error and an
empty event trace. -/
theorem C4_no_network_witness :
    send_email ⟨fun _ => none, fun _ => none⟩ ["a@b".toList] "s".toList
      "b".toList "sec".toList "u".toList "p".toList false none =
      ⟨[], .error (.exn ("File 'sec' does not exist!".toList))⟩ := by
  have h := C4_no_network_on_missing_file ⟨fun _ => none, fun _ => none⟩
    ["a@b".toList] "s".toList "b".toList "sec".toList "u".toList "p".toList
    false none rfl
  rw [h]
  decide

/-- C5: when credentials resolve, the recipient list used both for the To
header and for the SMTP submission is the sender alone if the argument
was exactly the DEBUG sentinel list, and the argument unchanged
otherwise. -/
theorem C5_debug_sentinel (fs : FS) (recipients : List PyStr)
    (subject body sf utag ptag : PyStr) (html : Bool) (atts : Option (List PyStr))
    (u p : PyStr) (aparts : List MimePart)
    (hsec : get_secrets fs.text sf utag ptag = .ok (u, p))
    (hatt : attachParts fs atts = .ok aparts) :
    sentTo (send_email fs recipients subject body sf utag ptag html atts) =
      [if recipients = ["DEBUG".toList] then [u] else recipients] ∧
    (okMessage (send_email fs recipients subject body sf utag ptag html atts)).map
        EmailMessage.toHeader =
      some (List.intercalate ", ".toList
        (if recipients = ["DEBUG".toList] then [u] else recipients)) := by
  simp only [send_email, hsec, hatt]
  constructor
  · simp [sentTo]
  · simp [okMessage]

/-- Witness for C5: with the DEBUG sentinel the send goes to the resolved
sender alone. -/
theorem C5_debug_sentinel_witness :
    sentTo (send_email
      ⟨fun q => if q = "s".toList
          then some "gmail_username: alice@a\ngmail_password: pa\n".toList else none,
        fun _ => none⟩
      ["DEBUG".toList] "Hi".toList "B".toList "s".toList
      "gmail_username".toList "gmail_password".toList false none) =
      [["alice@a".toList]] := by
  have h := (C5_debug_sentinel
    ⟨fun q => if q = "s".toList
        then some "gmail_username: alice@a\ngmail_password: pa\n".toList else none,
      fun _ => none⟩
    ["DEBUG".toList] "Hi".toList "B".toList "s".toList
    "gmail_username".toList "gmail_password".toList false none
    "alice@a".toList "pa".toList [] (by decide) (by decide)).1
  rw [h]
  decide

/-- C9: when credentials resolve, the single body part of the composed
message carries the html subtype when the html flag is set and the plain
subtype otherwise. -/
theorem C9_body_subtype (fs : FS) (recipients : List PyStr)
    (subject body sf utag ptag : PyStr) (html : Bool) (atts : Option (List PyStr))
    (u p : PyStr) (aparts : List MimePart)
    (hsec : get_secrets fs.text sf utag ptag = .ok (u, p))
    (hatt : attachParts fs atts = .ok aparts) :
    (okMessage (send_email fs recipients subject body sf utag ptag html atts)).map
        (fun m => m.parts.head?) =
      some (some (MimePart.text body
        (if html then "html".toList else "plain".toList))) := by
  simp only [send_email, hsec, hatt]
  cases html <;> simp [okMessage]

/-- Witness for C9: with the html flag set the body part is tagged html. -/
theorem C9_body_subtype_witness :
    (okMessage (send_email
      ⟨fun q => if q = "s".toList
          then some "gmail_username: alice@a\ngmail_password: pa\n".toList else none,
        fun _ => none⟩
      ["x@y".toList] "Hi".toList "B".toList "s".toList
      "gmail_username".toList "gmail_password".toList true none)).map
        (fun m => m.parts.head?) =
      some (some (MimePart.text "B".toList "html".toList)) := by
  have h := C9_body_subtype
    ⟨fun q => if q = "s".toList
        then some "gmail_username: alice@a\ngmail_password: pa\n".toList else none,
      fun _ => none⟩
    ["x@y".toList] "Hi".toList "B".toList "s".toList
    "gmail_username".toList "gmail_password".toList true none
    "alice@a".toList "pa".toList [] (by decide) (by decide)
  rw [h]
  decide

/-- C8: when credentials resolve and every attachment file is readable,
the composed message's parts are the body part followed by exactly one
application/octet-stream part per attachment path, in order, each with a
Content-Disposition naming the file's final path component and a payload
that is the base64 encoding of the file's bytes. -/
theorem C8_attachment_parts (fs : FS) (recipients : List PyStr)
    (subject body sf utag ptag : PyStr) (html : Bool) (paths : List PyStr)
    (bytesOf : PyStr → List Nat) (u p : PyStr)
    (hsec : get_secrets fs.text sf utag ptag = .ok (u, p))
    (hread : ∀ q ∈ paths, fs.bin q = some (bytesOf q)) :
    (okMessage (send_email fs recipients subject body sf utag ptag html
        (some paths))).map EmailMessage.parts =
      some ((if html then MimePart.text body "html".toList
             else MimePart.text body "plain".toList) ::
        paths.map (fun q => MimePart.base "application".toList
          "octet-stream".toList (encodebytes (bytesOf q))
          [("Content-Transfer-Encoding".toList, "base64".toList),
           ("Content-Disposition".toList,
            "attachment; filename=".toList ++ pathName q)])) := by
  have hatt : attachParts fs (some paths) =
      .ok (paths.map fun q => mkAttachment q (bytesOf q)) := by
    unfold attachParts
    exact exMapM_ok _ _ paths (fun a ha => by rw [hread a ha])
  simp only [send_email, hsec, hatt, okMessage, mkAttachment]
  cases html <;> simp

/-- Witness for C8: a two-byte attachment produces one octet-stream part
whose payload is its base64 encoding. -/
theorem C8_attachment_parts_witness :
    (okMessage (send_email
      ⟨fun q => if q = "s".toList
          then some "gmail_username: alice@a\ngmail_password: pa\n".toList else none,
        fun q => if q = "d/a.bin".toList then some [104, 105] else none⟩
      ["x@y".toList] "Hi".toList "B".toList "s".toList
      "gmail_username".toList "gmail_password".toList false
      (some ["d/a.bin".toList]))).map EmailMessage.parts =
      some [MimePart.text "B".toList "plain".toList,
            MimePart.base "application".toList "octet-stream".toList
              "aGk=\n".toList
              [("Content-Transfer-Encoding".toList, "base64".toList),
               ("Content-Disposition".toList,
                "attachment; filename=a.bin".toList)]] := by
  have h := C8_attachment_parts
    ⟨fun q => if q = "s".toList
        then some "gmail_username: alice@a\ngmail_password: pa\n".toList else none,
      fun q => if q = "d/a.bin".toList then some [104, 105] else none⟩
    ["x@y".toList] "Hi".toList "B".toList "s".toList
    "gmail_username".toList "gmail_password".toList false
    ["d/a.bin".toList] (fun _ => [104, 105])
    "alice@a".toList "pa".toList (by decide)
    (by intro q hq; simp at hq; rw [hq]; decide)
  rw [h]
  decide

/-- File system for C3: two secrets files binding different senders. -/
def fsC3 : FS :=
  ⟨fun q =>
    if q = "a.txt".toList then
      some "gmail_username: alice@a\ngmail_password: pa\n".toList
    else if q = "b.txt".toList then
      some "gmail_username: bob@b\ngmail_password: pb\n".toList
    else none,
   fun _ => none⟩

/-- C3: evaluation at the failing input. test_send_email is called with
secrets_file a.txt while the module-global args.secrets_file is b.txt;
with include_attachment false the one send attempt uses the credentials
of b.txt (sender bob@b), not those of the secrets_file argument a.txt
(sender alice@a), because line 225 of send_email.py reads
args.secrets_file instead of the parameter. -/
theorem C3_nonattachment_path_reads_global :
    (test_send_email fsC3 "b.txt".toList "a.txt".toList
        "gmail_username".toList "gmail_password".toList false).sends =
      [.connect "smtp.gmail.com".toList 587, .starttls,
       .login "bob@b".toList "pb".toList,
       .sendmail "bob@b".toList ["bob@b".toList]
         { fromAddr := "bob@b".toList, toHeader := "bob@b".toList,
           subject := "Test Email".toList,
           parts := [MimePart.text "This is a test.".toList "plain".toList] }] ∧
    ("bob@b".toList : PyStr) ≠ "alice@a".toList := by
  decide

/-- C6: test_send_email catches whatever error the inner send_email call
produces (here: whatever error the model can produce before the SMTP
session); it returns normally and its last log line is the closing
TERMINATED banner, provided only that the attachment branch can create
its test.txt file. -/
theorem C6_test_never_crashes (fs : FS) (argsSF sf utag ptag : PyStr)
    (incAtt : Bool)
    (hcreate : incAtt = true → fs.bin "test.txt".toList = none) :
    (test_send_email fs argsSF sf utag ptag incAtt).outcome = .ok () ∧
    (test_send_email fs argsSF sf utag ptag incAtt).logs.getLast? =
      some "====== TERMINATED ======".toList := by
  cases incAtt with
  | false =>
    simp only [test_send_email, Bool.false_eq_true, if_false]
    cases h : (send_email fs ["DEBUG".toList] "Test Email".toList
        "This is a test.".toList argsSF utag ptag false none).outcome with
    | ok m => exact ⟨rfl, rfl⟩
    | error e => exact ⟨rfl, rfl⟩
  | true =>
    have hb := hcreate rfl
    simp only [test_send_email, if_true]
    rw [hb]
    cases h : (send_email
        { fs with bin := fun q =>
            if q = "test.txt".toList then some testAttachmentBytes else fs.bin q }
        ["DEBUG".toList] "Test Email".toList "This is a test.".toList
        sf utag ptag false (some ["test.txt".toList])).outcome with
    | ok m => exact ⟨rfl, rfl⟩
    | error e => exact ⟨rfl, rfl⟩

/-- Witness for C6: with an empty file system the inner send fails on the
missing secrets file, yet the test helper returns normally and still logs
the closing banner. -/
theorem C6_test_never_crashes_witness :
    (test_send_email ⟨fun _ => none, fun _ => none⟩ "s".toList "s".toList
        "u".toList "p".toList false).outcome = .ok () ∧
    (test_send_email ⟨fun _ => none, fun _ => none⟩ "s".toList "s".toList
        "u".toList "p".toList false).logs.getLast? =
      some "====== TERMINATED ======".toList :=
  C6_test_never_crashes ⟨fun _ => none, fun _ => none⟩ "s".toList "s".toList
    "u".toList "p".toList false (fun h => Bool.noConfusion h)

/-- C7: for every existing message file whose first parsed recipient is
non-empty (the front end's own guard), the front end returns the first
line stripped and split on commas as recipients, the second line stripped
as subject, and the remaining contents unchanged as body. -/
theorem C7_message_file_parse (fs : FS) (file content : PyStr)
    (hfs : fs.text file = some content)
    (hne : (pySplitChar ',' (pyStrip (firstLineOf content))).headD [] ≠ []) :
    readMessageFile fs file =
      .ok (pySplitChar ',' (pyStrip (firstLineOf content)),
           pyStrip (firstLineOf (afterFirstLine content)),
           afterFirstLine (afterFirstLine content)) := by
  have hsnd : ∀ c : PyStr, (pyReadline c).2 = afterFirstLine c := by
    intro c
    rw [pyReadline_eq]
  simp only [readMessageFile, hfs]
  rw [pyStrip_readline_fst content, hsnd content,
    pyStrip_readline_fst (afterFirstLine content), hsnd (afterFirstLine content),
    if_neg hne]

/-- File system for the C7 witness, holding the message file of the
end-to-end scenario. -/
def fsC7 : FS :=
  ⟨fun q =>
    if q = "m".toList then
      some "bob@example.com,carol@example.com\nHello\nBody line 1\nBody line 2\n".toList
    else none,
   fun _ => none⟩

/-- Witness for C7: the end-to-end scenario file parses to the two
recipients, the subject Hello and the remaining two body lines. -/
theorem C7_message_file_parse_witness :
    readMessageFile fsC7 "m".toList =
      .ok (["bob@example.com".toList, "carol@example.com".toList],
           "Hello".toList, "Body line 1\nBody line 2\n".toList) := by
  have h := C7_message_file_parse fsC7 "m".toList
    "bob@example.com,carol@example.com\nHello\nBody line 1\nBody line 2\n".toList
    (by decide) (by decide)
  rw [h]
  decide

/-- C10: a successful get_secrets always returns two non-empty strings;
and whenever the scan for the username tag ends empty — whether the tag
matched no line, or matched only lines with no colon or a
whitespace-only value — the result is the very same missing-tag error,
independent of the file content. -/
theorem C10_success_nonempty_and_same_error :
    (∀ (fs : PyStr → Option PyStr) (sf utag ptag u p : PyStr),
      get_secrets fs sf utag ptag = .ok (u, p) → u ≠ [] ∧ p ≠ []) ∧
    (∀ sf utag ptag c c' : PyStr,
      scan1 utag (splitKeepNl c) = [] → scan1 utag (splitKeepNl c') = [] →
      get_secretsContent sf utag ptag c = get_secretsContent sf utag ptag c') := by
  constructor
  · intro fs sf utag ptag u p hok
    unfold get_secrets at hok
    cases hfs : fs sf with
    | none => rw [hfs] at hok; simp at hok
    | some content =>
      rw [hfs] at hok
      have hok2 : get_secretsContent sf utag ptag content = .ok (u, p) := hok
      rw [get_secretsContent_eq] at hok2
      by_cases h1 : (lastMatchValue utag (splitKeepNl content)).getD [] = []
      · rw [if_pos h1] at hok2
        simp at hok2
      by_cases h2 : (lastMatchValue ptag (splitKeepNl content)).getD [] = []
      · rw [if_neg h1, if_pos h2] at hok2
        simp at hok2
      rw [if_neg h1, if_neg h2] at hok2
      injection hok2 with hpair
      injection hpair with hu hp
      constructor
      · rw [← hu]; exact h1
      · rw [← hp]; exact h2
  · intro sf utag ptag c c' hc hc'
    rw [scan1_eq_lastMatch] at hc hc'
    rw [get_secretsContent_eq, get_secretsContent_eq, if_pos hc, if_pos hc']

/-- Witness for C10: a successful load returns non-empty values, and a
file whose username tag matches only a colon-free line produces literally
the same error as a file in which the tag matches no line. -/
theorem C10_witness :
    (("alice@a".toList : PyStr) ≠ [] ∧ ("pa".toList : PyStr) ≠ []) ∧
    get_secretsContent "s.txt".toList "u".toList "p".toList "u\np: x\n".toList =
      get_secretsContent "s.txt".toList "u".toList "p".toList "p: x\n".toList :=
  ⟨C10_success_nonempty_and_same_error.1
      (fun q => if q = "s".toList
        then some "gmail_username: alice@a\ngmail_password: pa\n".toList else none)
      "s".toList "gmail_username".toList "gmail_password".toList
      "alice@a".toList "pa".toList (by decide),
   C10_success_nonempty_and_same_error.2 "s.txt".toList "u".toList "p".toList
      "u\np: x\n".toList "p: x\n".toList (by decide) (by decide)⟩

example :
    get_secrets (fun p => if p = "s".toList
        then some "u: a\nu: b\np: c\n".toList else none)
      "s".toList "u".toList "p".toList
      = .ok ("b".toList, "c".toList) := by decide

example : encodebytes [104, 105] = "aGk=\n".toList := by decide

example :
    readMessageFile
      ⟨fun p => if p = "m".toList
          then some "bob@example.com,carol@example.com\nHello\nBody line 1\nBody line 2\n".toList
          else none,
        fun _ => none⟩ "m".toList
      = .ok (["bob@example.com".toList, "carol@example.com".toList],
             "Hello".toList, "Body line 1\nBody line 2\n".toList) := by decide
